import Mathlib

/-!
Shallow embedding of the EVtrack-automation repository's workflow logic.

Each definition below is translated from a named Python function of the
repository (`api/main.py`, `automation/visitor_search.py`,
`automation/credentials.py`, `automation/vehicle_add.py`,
`automation/login.py`, `automation/vehicles.py`).  Browser/DOM state is
modelled as explicit record types; Python exceptions are modelled with
`Except`; Python `None`-able values with `Option`.
-/

namespace EvTrack

/-! ## Python string primitives (ASCII model) -/

/-- Substring test on character lists: does `needle` occur inside `hay`?
Models the Python expression `needle in hay`. -/
def subList (needle : List Char) : List Char → Bool
  | [] => needle.isEmpty
  | c :: cs => needle.isPrefixOf (c :: cs) || subList needle cs

/-- Python `needle in hay` for strings. -/
def pyIn (needle hay : String) : Bool :=
  subList needle.data hay.data

/-- Drop leading whitespace characters from a character list. -/
def dropLeadingWs : List Char → List Char
  | [] => []
  | c :: cs => if c.isWhitespace then dropLeadingWs cs else c :: cs

/-- Strip whitespace from both ends of a character list. -/
def stripChars (cs : List Char) : List Char :=
  ((dropLeadingWs ((dropLeadingWs cs).reverse)).reverse)

/-- Python `s.strip()` (ASCII whitespace model). -/
def pyStrip (s : String) : String :=
  ⟨stripChars s.data⟩

/-- Python `s.lower()` (ASCII model). -/
def pyLower (s : String) : String :=
  ⟨s.data.map Char.toLower⟩

/-- Python `s.upper()` (ASCII model). -/
def pyUpper (s : String) : String :=
  ⟨s.data.map Char.toUpper⟩

/-- Worker for `pyTitle`: the flag records whether the previous character
was a letter. -/
def titleChars : Bool → List Char → List Char
  | _, [] => []
  | prevAlpha, c :: cs =>
    if c.isAlpha then
      (if prevAlpha then c.toLower else c.toUpper) :: titleChars true cs
    else
      c :: titleChars false cs

/-- Python `s.title()` (ASCII model): upper-case every letter that follows
a non-letter, lower-case the other letters. -/
def pyTitle (s : String) : String :=
  ⟨titleChars false s.data⟩

/-- Split worker.  The separator is `s0 :: srest` (always non-empty);
`acc` is the current chunk, reversed.  The fuel argument (instantiated
with the length of the scanned list, which every step shrinks by at least
one character) keeps the recursion structural. -/
def pySplitAux (s0 : Char) (srest : List Char) : Nat → List Char → List Char → List (List Char)
  | _, [], acc => [acc.reverse]
  | 0, cs, acc => [acc.reverse ++ cs]
  | fuel + 1, c :: cs, acc =>
    if c = s0 ∧ srest.isPrefixOf cs then
      acc.reverse :: pySplitAux s0 srest fuel (cs.drop srest.length) []
    else
      pySplitAux s0 srest fuel cs (c :: acc)

/-- Python `s.split(sep)` for a non-empty separator (the repository never
splits on an empty separator). -/
def pySplit (s sep : String) : List String :=
  match sep.data with
  | [] => [s]
  | c :: cs => (pySplitAux c cs s.data.length s.data []).map fun l => ⟨l⟩

/-- Worker for `pySplitWs`: `acc` is the current chunk, reversed. -/
def splitWsAux : List Char → List Char → List String
  | [], acc => if acc.isEmpty then [] else [⟨acc.reverse⟩]
  | c :: cs, acc =>
    if c.isWhitespace then
      (if acc.isEmpty then [] else [⟨acc.reverse⟩]) ++ splitWsAux cs []
    else
      splitWsAux cs (c :: acc)

/-- Python `s.split()` with no separator: split on whitespace runs,
discarding empty chunks. -/
def pySplitWs (s : String) : List String :=
  splitWsAux s.data []

/-- Value of a non-empty all-digit character list, `none` otherwise. -/
def digitsVal : List Char → Option Nat
  | [] => none
  | cs =>
    if cs.all Char.isDigit then
      some (cs.foldl (fun acc c => 10 * acc + (c.toNat - 48)) 0)
    else
      none

/-- Python `int(s)` on a string: optional sign after stripping, then a
non-empty run of decimal digits. -/
def pyInt? (s : String) : Option Int :=
  match (pyStrip s).data with
  | '-' :: rest => (digitsVal rest).map (fun n => -(n : Int))
  | '+' :: rest => (digitsVal rest).map (fun n => (n : Int))
  | cs => (digitsVal cs).map (fun n => (n : Int))

/-- Python truthiness of an optional string (`None` and `""` are falsy). -/
def optTruthy : Option String → Bool
  | none => false
  | some s => ¬ s.isEmpty

/-- Python `"sep".join(l)`. -/
def pyJoin (sep : String) : List String → String
  | [] => ""
  | [s] => s
  | s :: rest => s ++ sep ++ pyJoin sep rest

/-! ## `validate_time_format` (api/main.py) -/

/-- `fastapi.HTTPException` as raised by the API layer. -/
structure HttpError where
  status : Nat
  detail : String
  deriving DecidableEq, Repr

/-- Character class `[0-9]` of the source regex, expressed through
character codes. -/
def isDigitCode (c : Char) : Bool :=
  decide (48 ≤ c.toNat ∧ c.toNat ≤ 57)

/-- Hour alternative of the source regex when two characters are present:
`[01][0-9]|2[0-3]`. -/
def hourTwo (a b : Char) : Bool :=
  ((a = '0' ∨ a = '1') ∧ isDigitCode b) ∨ (a = '2' ∧ decide (48 ≤ b.toNat ∧ b.toNat ≤ 51))

/-- Minute part `[0-5][0-9]` of the source regex. -/
def minuteOk (c d : Char) : Bool :=
  decide (48 ≤ c.toNat ∧ c.toNat ≤ 53) && isDigitCode d

/-- The anchored regex used by `validate_time_format`,
`^([01]?[0-9]|2[0-3]):[0-5][0-9]$`: the optional `[01]` gives a
four-character single-digit-hour form alongside the five-character form.
Since the pattern is anchored and every alternative fixes the character
count, a string matches exactly when it has one of the two shapes below. -/
def laxTimeMatch : List Char → Bool
  | [a, b, e, c, d] => hourTwo a b && (e = ':') && minuteOk c d
  | [a, e, c, d] => isDigitCode a && (e = ':') && minuteOk c d
  | _ => false

/-- The strict regex of the external time contract,
`^([01][0-9]|2[0-3]):[0-5][0-9]$` (zero-padded hours only). -/
def strictTimeMatch : List Char → Bool
  | [a, b, e, c, d] => hourTwo a b && (e = ':') && minuteOk c d
  | _ => false

/-- Python `f"{n:02d}"` for the (non-negative) hour/minute values. -/
def pad2 (n : Int) : String :=
  if 0 ≤ n ∧ n < 10 then "0" ++ toString n else toString n

/-- Body of `validate_time_format` after the strip: length check, regex
check, colon-position check, split and numeric range checks, then the
zero-padded reformat. -/
def validateCore (t : String) : Except HttpError String :=
  if t.length ≠ 5 then
    .error ⟨400, "Invalid time format '" ++ t ++ "'. Must be exactly HH:MM format (5 characters)"⟩
  else if ¬ laxTimeMatch t.data then
    .error ⟨400, "Invalid time format '" ++ t ++ "'. Must be HH:MM format with valid hours (00-23) and minutes (00-59)"⟩
  else if t.data.getD 2 ' ' ≠ ':' then
    .error ⟨400, "Invalid time format '" ++ t ++ "'. Colon must be in position 3 (HH:MM)"⟩
  else
    match pySplit t ":" with
    | [h, m] =>
      match pyInt? h, pyInt? m with
      | some hi, some mi =>
        if hi < 0 ∨ 23 < hi then
          .error ⟨400, "Invalid hours '" ++ h ++ "'. Must be between 00 and 23"⟩
        else if mi < 0 ∨ 59 < mi then
          .error ⟨400, "Invalid minutes '" ++ m ++ "'. Must be between 00 and 59"⟩
        else
          .ok (pad2 hi ++ ":" ++ pad2 mi)
      | _, _ =>
        .error ⟨400, "Invalid time format '" ++ t ++ "'. Hours and minutes must be numeric"⟩
    | _ =>
      .error ⟨400, "Invalid time format '" ++ t ++ "'. Hours and minutes must be numeric"⟩

/-- `validate_time_format` of api/main.py.  `none` models a `None`
argument; empty or whitespace-only input is allowed and maps to `""`. -/
def validate_time_format : Option String → Except HttpError String
  | none => .ok ""
  | some s =>
    if s.isEmpty ∨ (pyStrip s).isEmpty then .ok ""
    else validateCore (pyStrip s)

instance {ε α : Type} [DecidableEq ε] [DecidableEq α] : DecidableEq (Except ε α)
  | .ok a, .ok b =>
    if h : a = b then .isTrue (by rw [h]) else .isFalse (by simp [h])
  | .ok _, .error _ => .isFalse (by simp)
  | .error _, .ok _ => .isFalse (by simp)
  | .error a, .error b =>
    if h : a = b then .isTrue (by rw [h]) else .isFalse (by simp [h])

/-- The decimal digit character for `n < 10`. -/
def digitChar (n : Nat) : Char := Char.ofNat (48 + n)

/-- The canonical zero-padded `HH:MM` string for hour `h` and minute `m`. -/
def mkTime (h m : Nat) : String :=
  ⟨[digitChar (h / 10), digitChar (h % 10), ':', digitChar (m / 10), digitChar (m % 10)]⟩

end EvTrack

namespace EvTrack

/-! ## Properties of `validate_time_format` -/

set_option maxRecDepth 8192 in
/-- Every canonical `HH:MM` string survives stripping, is non-empty, and
is accepted verbatim by the core validator (checked exhaustively). -/
theorem mkTime_props : ∀ h < 24, ∀ m < 60,
    pyStrip (mkTime h m) = mkTime h m ∧ (mkTime h m).isEmpty = false ∧
    validateCore (mkTime h m) = .ok (mkTime h m) := by decide

/-- `digitChar` inverts `Char.toNat` on characters at or above `'0'`. -/
theorem digitChar_toNat (c : Char) (h : 48 ≤ c.toNat) :
    digitChar (c.toNat - 48) = c := by
  have h2 : 48 + (c.toNat - 48) = c.toNat := by omega
  rw [digitChar, h2, Char.ofNat_toNat]

/-- On five-character strings the lax source regex and the strict
zero-padded regex agree. -/
theorem lax_eq_strict {cs : List Char} (h : cs.length = 5) :
    laxTimeMatch cs = strictTimeMatch cs := by
  rcases cs with _ | ⟨a, _ | ⟨b, _ | ⟨e, _ | ⟨c, _ | ⟨d, _ | rest⟩⟩⟩⟩⟩ <;>
    simp_all [laxTimeMatch, strictTimeMatch]

/-- Any string matching the strict regex is a canonical `HH:MM` string. -/
theorem strict_decomp {s : String} (h : strictTimeMatch s.data = true) :
    ∃ hh mm, hh < 24 ∧ mm < 60 ∧ s = mkTime hh mm := by
  obtain ⟨data⟩ := s
  rcases data with _ | ⟨a, _ | ⟨b, _ | ⟨e, _ | ⟨c, _ | ⟨d, _ | rest⟩⟩⟩⟩⟩ <;>
    simp only [strictTimeMatch, Bool.and_eq_true, decide_eq_true_eq] at h <;>
    try exact absurd h Bool.false_ne_true
  obtain ⟨⟨hhour, hcol⟩, hmin⟩ := h
  subst hcol
  have hc : 48 ≤ c.toNat ∧ c.toNat ≤ 53 ∧ 48 ≤ d.toNat ∧ d.toNat ≤ 57 := by
    simp only [minuteOk, isDigitCode, Bool.and_eq_true, decide_eq_true_eq] at hmin
    omega
  have hab : 48 ≤ a.toNat ∧ 48 ≤ b.toNat ∧ b.toNat ≤ 57 ∧
      (a.toNat - 48) * 10 + (b.toNat - 48) < 24 := by
    simp only [hourTwo, isDigitCode, decide_eq_true_eq] at hhour
    rcases hhour with ⟨ha, hb⟩ | ⟨ha, hb⟩
    · have h0 : ('0' : Char).toNat = 48 := rfl
      have h1 : ('1' : Char).toNat = 49 := rfl
      rcases ha with ha | ha <;> subst ha <;> omega
    · have h2 : ('2' : Char).toNat = 50 := rfl
      subst ha
      omega
  refine ⟨(a.toNat - 48) * 10 + (b.toNat - 48),
          (c.toNat - 48) * 10 + (d.toNat - 48), hab.2.2.2, by omega, ?_⟩
  have e1 : ((a.toNat - 48) * 10 + (b.toNat - 48)) / 10 = a.toNat - 48 := by omega
  have e2 : ((a.toNat - 48) * 10 + (b.toNat - 48)) % 10 = b.toNat - 48 := by omega
  have e3 : ((c.toNat - 48) * 10 + (d.toNat - 48)) / 10 = c.toNat - 48 := by omega
  have e4 : ((c.toNat - 48) * 10 + (d.toNat - 48)) % 10 = d.toNat - 48 := by omega
  unfold mkTime
  rw [e1, e2, e3, e4, digitChar_toNat a hab.1, digitChar_toNat b hab.2.1,
      digitChar_toNat c hc.1, digitChar_toNat d hc.2.2.1]

end EvTrack

namespace EvTrack

/-- C1: every string matching the strict regex
`^([01][0-9]|2[0-3]):[0-5][0-9]$` is accepted by `validate_time_format`
(no error is raised) and returned equal to the input. -/
theorem c1_valid_time_accepted (s : String)
    (h : strictTimeMatch s.data = true) :
    validate_time_format (some s) = .ok s := by
  obtain ⟨hh, mm, hlt, mlt, rfl⟩ := strict_decomp h
  obtain ⟨hstrip, hne, hcore⟩ := mkTime_props hh hlt mm mlt
  simp [validate_time_format, hstrip, hne, hcore]

/-- Witness for C1 at the concrete input "09:30". -/
theorem c1_valid_time_accepted_witness :
    strictTimeMatch "09:30".data = true ∧
    validate_time_format (some "09:30") = .ok "09:30" :=
  ⟨by decide, c1_valid_time_accepted "09:30" (by decide)⟩

end EvTrack

namespace EvTrack

/-- C2 counterexample: the empty string does not match the strict regex,
yet `validate_time_format` accepts it (returning `""`) instead of raising
HTTP 400. -/
theorem c2_counterexample_empty_string :
    strictTimeMatch "".data = false ∧
    validate_time_format (some "") = .ok "" ∧
    ∀ er : HttpError, validate_time_format (some "") ≠ .error er := by
  refine ⟨by decide, by decide, ?_⟩
  intro er h
  rw [show validate_time_format (some "") = .ok "" from by decide] at h
  exact Except.noConfusion h

/-- C2 (amended): every input whose stripped form is non-empty and does
not match the strict regex fails with an HTTP 400 error; empty and
whitespace-only inputs are instead accepted with result `""`. -/
theorem c2_invalid_time_rejected (s : String)
    (h1 : (pyStrip s).isEmpty = false)
    (h2 : strictTimeMatch (pyStrip s).data = false) :
    ∃ d, validate_time_format (some s) = .error ⟨400, d⟩ := by
  have hse : s.isEmpty = false := by
    cases he : s.isEmpty
    · rfl
    · rw [String.isEmpty_iff] at he
      subst he
      exact absurd h1 (by decide)
  rw [validate_time_format]
  rw [if_neg (by simp [hse, h1])]
  rw [validateCore]
  by_cases hl : (pyStrip s).length = 5
  · have hlax : laxTimeMatch (pyStrip s).data = strictTimeMatch (pyStrip s).data :=
      lax_eq_strict hl
    rw [if_neg (by simp [hl]), if_pos (by simp [hlax, h2])]
    exact ⟨_, rfl⟩
  · rw [if_pos (by simp [hl])]
    exact ⟨_, rfl⟩

/-- Witness for the amended C2 at the concrete input "24:00". -/
theorem c2_invalid_time_rejected_witness :
    (pyStrip "24:00").isEmpty = false ∧
    strictTimeMatch (pyStrip "24:00").data = false ∧
    ∃ d, validate_time_format (some "24:00") = .error ⟨400, d⟩ :=
  ⟨by decide, by decide, c2_invalid_time_rejected "24:00" (by decide) (by decide)⟩

/-- C10: `None`, empty, and whitespace-only time inputs are accepted and
map to `""`; for any other input, whitespace is stripped first, so a
strictly valid `HH:MM` value surrounded by whitespace is accepted and
returned stripped. -/
theorem c10_time_strip_behaviour :
    validate_time_format none = .ok "" ∧
    (∀ s, (pyStrip s).isEmpty = true → validate_time_format (some s) = .ok "") ∧
    (∀ s, strictTimeMatch (pyStrip s).data = true →
      validate_time_format (some s) = .ok (pyStrip s)) := by
  refine ⟨rfl, ?_, ?_⟩
  · intro s hs
    rw [validate_time_format, if_pos (by simp [hs])]
  · intro s hs
    obtain ⟨hh, mm, hlt, mlt, heq⟩ := strict_decomp hs
    obtain ⟨hstrip, hne, hcore⟩ := mkTime_props hh hlt mm mlt
    have hs' : (pyStrip s).isEmpty = false := heq ▸ hne
    have hse : s.isEmpty = false := by
      cases he : s.isEmpty
      · rfl
      · rw [String.isEmpty_iff] at he
        subst he
        exact absurd hs' (by decide)
    rw [validate_time_format, if_neg (by simp [hse, hs']), heq, hcore]

/-- Witness for C10 at concrete inputs: whitespace-only and
whitespace-padded values. -/
theorem c10_time_strip_behaviour_witness :
    validate_time_format (some "   ") = .ok "" ∧
    validate_time_format (some " 09:30 ") = .ok (pyStrip " 09:30 ") :=
  ⟨c10_time_strip_behaviour.2.1 "   " (by decide),
   c10_time_strip_behaviour.2.2 " 09:30 " (by decide)⟩

end EvTrack

namespace EvTrack

/-! ## Progress reporting (`update_progress` of
VisitorSearchAutomation / VehicleAutomation and the other workflow
classes, all textually identical) -/

/-- One JSON progress message sent over the websocket. -/
structure ProgressMsg where
  type : String
  percent : Int
  status : String
  deriving DecidableEq, Repr

/-- The single attached websocket listener; `sendOk` records whether a
`send_json` on it succeeds or raises. -/
structure Listener where
  sendOk : Bool
  deriving DecidableEq, Repr

/-- `update_progress(percent, status)`: when a websocket is attached, send
one JSON message (which may raise if the connection is broken), then log;
with no websocket, only the log line is produced.  The result is the pair
(messages sent, log lines). -/
def update_progress (websocket : Option Listener) (percent : Int) (status : String) :
    Except String (List ProgressMsg × List String) :=
  let logLine := "Progress: " ++ toString percent ++ "% - " ++ status
  match websocket with
  | some ws =>
    if ws.sendOk then
      .ok ([⟨"progress", percent, status⟩], [logLine])
    else
      .error "websocket send failed"
  | none => .ok ([], [logLine])

/-- C9: pushing progress with no attached listener never raises and sends
nothing; it produces exactly one log line, for every percent and status. -/
theorem c9_progress_no_listener_noop (percent : Int) (status : String) :
    update_progress none percent status =
      .ok ([], ["Progress: " ++ toString percent ++ "% - " ++ status]) := by
  rfl

end EvTrack

namespace EvTrack

/-! ## `/vehicles/add` endpoint (`add_vehicle` of api/main.py): the phase
before any browser driver is started -/

/-- A parsed form body: ordered key/value pairs. -/
abbrev FormData := List (String × String)

/-- `form_data.get(key)`: the first value stored under `key`. -/
def formGet : FormData → String → Option String
  | [], _ => none
  | (k, v) :: rest, key => if key = k then some v else formGet rest key

/-- A value stored in the `vehicle_data` dict: strings, or the
`int`-parsed year. -/
inductive FieldValue where
  | str (s : String)
  | int (i : Int)
  deriving DecidableEq, Repr

/-- The fixed field list iterated by the endpoint. -/
def vehicle_fields : List String :=
  ["number_plate", "vehicle_type", "make", "model", "year",
   "colour", "vin", "engine_number", "licence_disc_number",
   "licence_expiry_date", "document_number", "comments"]

/-- The entry the endpoint stores for one field: present and
non-blank values are kept stripped; `year` is `int`-parsed, with a parse
failure skipping the field. -/
def vehicleFieldValue (form : FormData) (f : String) : Option FieldValue :=
  match formGet form f with
  | none => none
  | some v =>
    if (pyStrip v).isEmpty then none
    else if f = "year" then
      match pyInt? v with
      | some n => some (.int n)
      | none => none
    else
      some (.str (pyStrip v))

/-- One `vehicle_data[field] = ...` update of the dict under
construction. -/
def dictStep (form : FormData) (d : String → Option FieldValue) (f : String) :
    String → Option FieldValue :=
  fun k =>
    match vehicleFieldValue form f with
    | some v => if k = f then some v else d k
    | none => d k

/-- The `vehicle_data` dict built by the field loop of the endpoint. -/
def buildVehicleData (form : FormData) : String → Option FieldValue :=
  vehicle_fields.foldl (dictStep form) (fun _ => none)

/-- Where the endpoint's pre-browser phase ends: either an
`HTTPException`, or the `start_driver` call with the validated inputs. -/
inductive AddVehiclePhase where
  | httpError (status : Nat) (detail : String)
  | startDriver (searchTerm : String)
  deriving DecidableEq, Repr

/-- `add_vehicle` of api/main.py up to the `start_driver` call:
search-term check, `vehicle_data` construction, VIN-or-plate check and
credentials check, in source order. -/
def add_vehicle_endpoint (form : FormData) (credsConfigured : Bool) : AddVehiclePhase :=
  match formGet form "search_term" with
  | none => .httpError 400 "Search term is required to find the visitor"
  | some st =>
    if st.isEmpty then
      .httpError 400 "Search term is required to find the visitor"
    else
      let vehicle_data := buildVehicleData form
      if (vehicle_data "vin").isNone ∧ (vehicle_data "number_plate").isNone then
        .httpError 400 "Either VIN or Number Plate is required"
      else if ¬ credsConfigured then
        .httpError 500 "Missing credentials"
      else
        .startDriver st

/-- A field update leaves every other key of the dict unchanged. -/
theorem dictStep_ne (form : FormData) (d : String → Option FieldValue)
    (f k : String) (h : k ≠ f) : dictStep form d f k = d k := by
  unfold dictStep
  cases vehicleFieldValue form f <;> simp [h]

/-- Folding updates for fields not containing `k` leaves `k` unchanged. -/
theorem foldl_dictStep_eval (form : FormData) :
    ∀ (fs : List String) (d : String → Option FieldValue) (k : String),
      k ∉ fs → fs.foldl (dictStep form) d k = d k := by
  intro fs
  induction fs with
  | nil => intro d k _; rfl
  | cons f rest ih =>
    intro d k h
    simp only [List.mem_cons, not_or] at h
    simp only [List.foldl_cons]
    rw [ih _ _ h.2, dictStep_ne form d f k h.1]

/-- Looking up a field of `vehicle_data` yields exactly the entry the
loop computed for that field. -/
theorem buildVehicleData_eval (form : FormData) (k : String)
    (pre post : List String) (h : vehicle_fields = pre ++ k :: post)
    (hpre : k ∉ pre) (hpost : k ∉ post) :
    buildVehicleData form k = vehicleFieldValue form k := by
  unfold buildVehicleData
  rw [h, List.foldl_append, List.foldl_cons, foldl_dictStep_eval form post _ k hpost]
  simp only [dictStep]
  cases hv : vehicleFieldValue form k with
  | none => exact foldl_dictStep_eval form pre _ k hpre
  | some v => simp

end EvTrack

namespace EvTrack

/-- The dict's `vin` entry. -/
theorem buildVehicleData_vin (form : FormData) :
    buildVehicleData form "vin" = vehicleFieldValue form "vin" :=
  buildVehicleData_eval form "vin"
    ["number_plate", "vehicle_type", "make", "model", "year", "colour"]
    ["engine_number", "licence_disc_number", "licence_expiry_date",
     "document_number", "comments"]
    rfl (by decide) (by decide)

/-- The dict's `number_plate` entry. -/
theorem buildVehicleData_plate (form : FormData) :
    buildVehicleData form "number_plate" = vehicleFieldValue form "number_plate" :=
  buildVehicleData_eval form "number_plate" []
    ["vehicle_type", "make", "model", "year", "colour", "vin",
     "engine_number", "licence_disc_number", "licence_expiry_date",
     "document_number", "comments"]
    rfl (by decide) (by decide)

/-- C3: a vehicle-add request whose form has neither a non-empty `vin`
nor a non-empty `number_plate` value is rejected with HTTP 400 and never
reaches the `start_driver` call, whatever the rest of the form or the
credential configuration. -/
theorem c3_add_vehicle_no_vin_plate_400 (form : FormData) (creds : Bool)
    (hvin : formGet form "vin" = none ∨ formGet form "vin" = some "")
    (hplate : formGet form "number_plate" = none ∨ formGet form "number_plate" = some "") :
    ∃ d, add_vehicle_endpoint form creds = .httpError 400 d := by
  have hv : vehicleFieldValue form "vin" = none := by
    unfold vehicleFieldValue
    rcases hvin with h | h <;> rw [h] <;> decide
  have hp : vehicleFieldValue form "number_plate" = none := by
    unfold vehicleFieldValue
    rcases hplate with h | h <;> rw [h] <;> decide
  unfold add_vehicle_endpoint
  cases hst : formGet form "search_term" with
  | none => exact ⟨_, rfl⟩
  | some st =>
    dsimp only
    by_cases hse : st.isEmpty
    · rw [if_pos hse]
      exact ⟨_, rfl⟩
    · rw [if_neg hse]
      rw [if_pos]
      · exact ⟨_, rfl⟩
      · rw [buildVehicleData_vin, buildVehicleData_plate, hv, hp]
        exact ⟨rfl, rfl⟩

/-- Witness for C3: a form with a search term and a make but no VIN and
no plate is rejected with HTTP 400 before the driver phase. -/
theorem c3_add_vehicle_no_vin_plate_400_witness :
    formGet [("search_term", "John Doe"), ("make", "Toyota")] "vin" = none ∧
    formGet [("search_term", "John Doe"), ("make", "Toyota")] "number_plate" = none ∧
    ∃ d, add_vehicle_endpoint [("search_term", "John Doe"), ("make", "Toyota")] true =
      .httpError 400 d :=
  ⟨by decide, by decide,
   c3_add_vehicle_no_vin_plate_400 [("search_term", "John Doe"), ("make", "Toyota")] true
     (Or.inl (by decide)) (Or.inl (by decide))⟩

end EvTrack

namespace EvTrack

/-! ## Credential workflow (`add_credential_to_visitor` of
automation/credentials.py) and the `/credentials/add` endpoint tail -/

/-- `models.visitor.CredentialData`. -/
structure CredentialData where
  reader_type : Option String
  unique_identifier : Option String
  pin : Option String
  active_date : Option String
  active_time : Option String
  expiry_date : Option String
  expiry_time : Option String
  use_limit : Option Int
  comments : Option String
  status : Option String
  access_control_lists : Option Bool
  deriving DecidableEq, Repr

/-- Python truthiness of an optional integer (`None` and `0` are falsy). -/
def intTruthy : Option Int → Bool
  | none => false
  | some n => n ≠ 0

/-- The browser observations the credential workflow reads, in program
order.  A `...Found` flag set to `false` models the corresponding
`wait_for_element` timing out (which raises, caught by the workflow's
outer handler) or, for the unique-identifier field, all fallback
selectors failing; `...SelectOk = false` models `select_by_value`
raising for an unavailable option. -/
structure CredPage where
  startUrl : String
  tabFound : Bool
  urlAfterTabClick : String
  addBtnFound : Bool
  urlAfterAddClick : String
  readerTypeFieldFound : Bool
  readerTypeSelectOk : Bool
  uniqueIdFieldFound : Bool
  uniqueIdEntryOk : Bool
  uniqueIdRetryOk : Bool
  pinFieldFound : Bool
  activeDateFieldFound : Bool
  activeTimeFieldFound : Bool
  expiryDateFieldFound : Bool
  expiryTimeFieldFound : Bool
  useLimitFieldFound : Bool
  commentsFieldFound : Bool
  statusFieldFound : Bool
  statusSelectOk : Bool
  aclCheckboxFound : Bool
  saveBtnFound : Bool
  urlAfterSave : String
  deriving DecidableEq, Repr

/-- Outcome of the credential workflow, instrumented with whether the
save button was ever clicked. -/
structure CredResult where
  success : Bool
  saveClicked : Bool
  deriving DecidableEq, Repr

/-- Post-save URL classification of the credential workflow: a
`visitor/edit` URL is a confirmed save, and any other URL is also
reported as success ("Form submitted"). -/
def classify_credential_save (urlAfterSave : String) : Bool :=
  if pyIn "visitor/edit" urlAfterSave then true else true

/-- `add_credential_to_visitor`: page check, credentials tab, Add button,
form filling (the unique identifier being the one required field), save
click, URL classification.  Every Python `return False` and every
exception caught by the outer handler appears as an early
`⟨false, false⟩`; the source lines are followed in order. -/
def add_credential_to_visitor (st : CredPage) (cd : CredentialData) : CredResult :=
  if ¬ pyIn "visitor/edit" st.startUrl then ⟨false, false⟩
  else if ¬ st.tabFound then ⟨false, false⟩
  else if ¬ pyIn "visitor/edit" st.urlAfterTabClick then ⟨false, false⟩
  else if ¬ st.addBtnFound then ⟨false, false⟩
  else if pyIn "visitor/list" st.urlAfterAddClick then ⟨false, false⟩
  else if optTruthy cd.reader_type ∧ ¬ st.readerTypeFieldFound then ⟨false, false⟩
  else if optTruthy cd.reader_type ∧ ¬ st.readerTypeSelectOk then ⟨false, false⟩
  else if ¬ optTruthy cd.unique_identifier then ⟨false, false⟩
  else if ¬ st.uniqueIdFieldFound then ⟨false, false⟩
  else if ¬ st.uniqueIdEntryOk ∧ ¬ st.uniqueIdRetryOk then ⟨false, false⟩
  else if optTruthy cd.pin ∧ ¬ st.pinFieldFound then ⟨false, false⟩
  else if optTruthy cd.active_date ∧ ¬ st.activeDateFieldFound then ⟨false, false⟩
  else if optTruthy cd.active_time ∧ ¬ st.activeTimeFieldFound then ⟨false, false⟩
  else if optTruthy cd.expiry_date ∧ ¬ st.expiryDateFieldFound then ⟨false, false⟩
  else if optTruthy cd.expiry_time ∧ ¬ st.expiryTimeFieldFound then ⟨false, false⟩
  else if intTruthy cd.use_limit ∧ ¬ st.useLimitFieldFound then ⟨false, false⟩
  else if optTruthy cd.comments ∧ ¬ st.commentsFieldFound then ⟨false, false⟩
  else if optTruthy cd.status ∧ ¬ st.statusFieldFound then ⟨false, false⟩
  else if optTruthy cd.status ∧ ¬ st.statusSelectOk then ⟨false, false⟩
  else if cd.access_control_lists.isSome ∧ ¬ st.aclCheckboxFound then ⟨false, false⟩
  else if ¬ st.saveBtnFound then ⟨false, false⟩
  else ⟨classify_credential_save st.urlAfterSave, true⟩

/-- Tail of the `/credentials/add` endpoint after the browser phase:
visitor lookup result, then the workflow's boolean outcome is mapped to
a success body or an HTTP error. -/
def add_credential_http (searchTerm : String) (searchResult : Option String)
    (workflowSuccess : Bool) : Except HttpError String :=
  match searchResult with
  | none => .error ⟨404, "Visitor not found with search term: " ++ searchTerm⟩
  | some _ =>
    if workflowSuccess then .ok "Credential added successfully"
    else .error ⟨400, "Failed to add credential"⟩

end EvTrack

namespace EvTrack

/-- C4: with no `unique_identifier` in the credential data, the workflow
returns failure, never clicks the save button (on any driver state), and
the endpoint maps the failed workflow to an HTTP 400 error. -/
theorem c4_credential_requires_unique_id (st : CredPage) (cd : CredentialData)
    (h : optTruthy cd.unique_identifier = false) :
    (add_credential_to_visitor st cd).success = false ∧
    (add_credential_to_visitor st cd).saveClicked = false ∧
    ∀ term uuid, add_credential_http term (some uuid)
        (add_credential_to_visitor st cd).success =
      .error ⟨400, "Failed to add credential"⟩ := by
  have key : add_credential_to_visitor st cd = ⟨false, false⟩ := by
    unfold add_credential_to_visitor
    simp [h]
  rw [key]
  exact ⟨rfl, rfl, fun _ _ => rfl⟩

/-- Witness for C4: a fully cooperative driver state, credential data
with every field except the unique identifier. -/
theorem c4_credential_requires_unique_id_witness :
    optTruthy (CredentialData.mk (some "CONTACTLESS_CARD") none none none none
        none none none none (some "ACTIVE") (some true)).unique_identifier = false ∧
    add_credential_to_visitor
      (CredPage.mk "https://app.evtrack.com/visitor/edit?uuid=abc" true
        "https://app.evtrack.com/visitor/edit?uuid=abc" true
        "https://app.evtrack.com/visitor/edit?uuid=abc" true true true true true
        true true true true true true true true true true true
        "https://app.evtrack.com/visitor/edit?uuid=abc")
      (CredentialData.mk (some "CONTACTLESS_CARD") none none none none
        none none none none (some "ACTIVE") (some true)) = ⟨false, false⟩ := by
  refine ⟨by decide, ?_⟩
  have h := c4_credential_requires_unique_id
    (CredPage.mk "https://app.evtrack.com/visitor/edit?uuid=abc" true
      "https://app.evtrack.com/visitor/edit?uuid=abc" true
      "https://app.evtrack.com/visitor/edit?uuid=abc" true true true true true
      true true true true true true true true true true true
      "https://app.evtrack.com/visitor/edit?uuid=abc")
    (CredentialData.mk (some "CONTACTLESS_CARD") none none none none
      none none none none (some "ACTIVE") (some true)) (by decide)
  obtain ⟨h1, h2, _⟩ := h
  cases hres : add_credential_to_visitor _ _
  rw [hres] at h1 h2
  simp only at h1 h2
  rw [h1, h2]

end EvTrack

namespace EvTrack

/-! ## Visitor search (`search_visitor_case_insensitive` of
automation/visitor_search.py) -/

/-- The visitor dict returned by `search_visitor_by_term`. -/
structure VisitorRec where
  uuid : String
  first_name : String
  last_name : String
  mobile : String
  status : String
  deriving DecidableEq, Repr

/-- The case variations collected before the variation loop: lower,
title and upper case, each only when it differs from the raw term. -/
def variationsToTry (t : String) : List String :=
  (if t ≠ pyLower t then [pyLower t] else []) ++
  ((if t ≠ pyTitle t then [pyTitle t] else []) ++
   (if t ≠ pyUpper t then [pyUpper t] else []))

/-- The variation loop: try each candidate in order, stopping at the
first hit.  Returns the result and the list of candidates attempted. -/
def tryVariations (search : String → Option VisitorRec) :
    List String → Option VisitorRec × List String
  | [] => (none, [])
  | v :: vs =>
    match search v with
    | some r => (some r, [v])
    | none =>
      let rest := tryVariations search vs
      (rest.1, v :: rest.2)

/-- The verification applied to a token-based hit: some token of the
original term occurs (case-insensitively) in the returned visitor's
full name. -/
def tokenVerify (parts : List String) (r : VisitorRec) : Bool :=
  parts.any fun p =>
    pyIn (pyLower p) (pyLower (r.first_name ++ " " ++ r.last_name))

/-- The last-name-only attempt, reached when the first-name attempt did
not produce an accepted result and the term has at least two tokens. -/
def tryLastToken (search : String → Option VisitorRec) (parts : List String) :
    Option VisitorRec × List String :=
  if 2 ≤ parts.length then
    match search (parts.getLastD "") with
    | some r =>
      if tokenVerify parts r then (some r, [parts.getLastD ""])
      else (none, [parts.getLastD ""])
    | none => (none, [parts.getLastD ""])
  else (none, [])

/-- The token phase: only terms whose stripped form contains a space are
split; the first token is tried (and accepted only when verified), then
the last token. -/
def tryTokens (search : String → Option VisitorRec) (term : String) :
    Option VisitorRec × List String :=
  if pyIn " " (pyStrip term) then
    match pySplitWs (pyStrip term) with
    | [] => (none, [])
    | p0 :: rest =>
      match search p0 with
      | some r =>
        if tokenVerify (p0 :: rest) r then (some r, [p0])
        else
          let last := tryLastToken search (p0 :: rest)
          (last.1, p0 :: last.2)
      | none =>
        let last := tryLastToken search (p0 :: rest)
        (last.1, p0 :: last.2)
  else (none, [])

/-- `search_visitor_case_insensitive`, parameterised by the behaviour of
`search_visitor_by_term` on the live session, returning the result
together with the list of search terms attempted, in order. -/
def search_visitor_case_insensitive (search : String → Option VisitorRec)
    (term : String) : Option VisitorRec × List String :=
  match search term with
  | some r => (some r, [term])
  | none =>
    let vars := tryVariations search (variationsToTry term)
    match vars.1 with
    | some r => (some r, term :: vars.2)
    | none =>
      let toks := tryTokens search term
      (toks.1, term :: (vars.2 ++ toks.2))

/-- The token candidates in attempt order: first token, then (when the
term has two or more tokens) the last token. -/
def tokenCandidates (term : String) : List String :=
  if pyIn " " (pyStrip term) then
    match pySplitWs (pyStrip term) with
    | [] => []
    | p0 :: rest =>
      p0 :: (if 2 ≤ (p0 :: rest).length then [(p0 :: rest).getLastD ""] else [])
  else []

end EvTrack

namespace EvTrack

/-- The variation loop attempts a prefix of its candidate list. -/
theorem tryVariations_trace_sublist (search : String → Option VisitorRec) :
    ∀ l : List String, (tryVariations search l).2.Sublist l := by
  intro l
  induction l with
  | nil => exact List.Sublist.refl []
  | cons v vs ih =>
    unfold tryVariations
    cases search v
    · exact List.Sublist.cons₂ v ih
    · exact List.Sublist.cons₂ v (List.nil_sublist vs)

/-- The collected case variations are an ordered subsequence of
lower, title, upper. -/
theorem variationsToTry_sublist (t : String) :
    (variationsToTry t).Sublist [pyLower t, pyTitle t, pyUpper t] := by
  have h1 : (if t ≠ pyLower t then [pyLower t] else []).Sublist [pyLower t] := by
    split
    · exact List.Sublist.refl _
    · exact List.nil_sublist _
  have h2 : (if t ≠ pyTitle t then [pyTitle t] else []).Sublist [pyTitle t] := by
    split
    · exact List.Sublist.refl _
    · exact List.nil_sublist _
  have h3 : (if t ≠ pyUpper t then [pyUpper t] else []).Sublist [pyUpper t] := by
    split
    · exact List.Sublist.refl _
    · exact List.nil_sublist _
  exact h1.append (h2.append h3)

/-- If every candidate misses, the variation loop returns `none` having
attempted all candidates. -/
theorem tryVariations_all_none (search : String → Option VisitorRec) :
    ∀ l : List String, (∀ v ∈ l, search v = none) →
      tryVariations search l = (none, l) := by
  intro l
  induction l with
  | nil => intro _; rfl
  | cons v vs ih =>
    intro h
    unfold tryVariations
    rw [h v (List.mem_cons_self v vs), ih (fun x hx => h x (List.mem_cons_of_mem v hx))]

/-- The last-token attempt list. -/
theorem tryLastToken_trace_sublist (search : String → Option VisitorRec)
    (parts : List String) :
    (tryLastToken search parts).2.Sublist
      (if 2 ≤ parts.length then [parts.getLastD ""] else []) := by
  unfold tryLastToken
  split
  · cases search (parts.getLastD "") with
    | none => exact List.Sublist.refl _
    | some r0 =>
      dsimp only
      rw [apply_ite Prod.snd, ite_self]
  · exact List.Sublist.refl _

/-- The token phase attempts an ordered subsequence of the token
candidate list. -/
theorem tryTokens_trace_sublist (search : String → Option VisitorRec) (term : String) :
    (tryTokens search term).2.Sublist (tokenCandidates term) := by
  unfold tryTokens tokenCandidates
  split
  · split
    · exact List.Sublist.refl _
    · rename_i p0 rest _
      cases search p0 with
      | some r =>
        dsimp only
        split
        · exact List.Sublist.cons₂ p0 (List.nil_sublist _)
        · exact List.Sublist.cons₂ p0 (tryLastToken_trace_sublist search (p0 :: rest))
      | none =>
        exact List.Sublist.cons₂ p0 (tryLastToken_trace_sublist search (p0 :: rest))
  · exact List.Sublist.refl _

/-- A hit produced by the last-token attempt passed verification. -/
theorem tryLastToken_some_verified (search : String → Option VisitorRec)
    (parts : List String) (r : VisitorRec)
    (h : (tryLastToken search parts).1 = some r) :
    tokenVerify parts r = true := by
  unfold tryLastToken at h
  split at h
  · cases hs : search (parts.getLastD "") <;> rw [hs] at h
    · exact absurd h (by simp)
    · rename_i r0
      dsimp only at h
      split at h
      · obtain rfl : r0 = r := by injection h
        assumption
      · exact absurd h (by simp)
  · exact absurd h (by simp)

/-- A hit produced by the token phase passed verification against the
tokens of the original term. -/
theorem tryTokens_some_verified (search : String → Option VisitorRec)
    (term : String) (r : VisitorRec)
    (h : (tryTokens search term).1 = some r) :
    tokenVerify (pySplitWs (pyStrip term)) r = true := by
  unfold tryTokens at h
  split at h
  · rename_i hsp
    split at h
    · exact absurd h (by simp)
    · rename_i p0 rest heq
      rw [heq]
      cases hs : search p0 <;> rw [hs] at h
      · exact tryLastToken_some_verified search (p0 :: rest) r h
      · rename_i r0
        dsimp only at h
        split at h
        · obtain rfl : r0 = r := by injection h
          assumption
        · exact tryLastToken_some_verified search (p0 :: rest) r h
  · exact absurd h (by simp)

end EvTrack

namespace EvTrack

/-- C5: the raw term is always the first search attempted, and a raw hit
is returned as-is with no further attempts; after a raw miss, every
further attempt comes, in order, from lower/title/upper case variants
followed by the first and last tokens; a variant hit ends the search
with the variant's result (no token attempt); and when the raw term and
all variants miss, any returned visitor passed the token verification
against the tokens of the original term. -/
theorem c5_search_fallback_order (search : String → Option VisitorRec) (term : String) :
    (search_visitor_case_insensitive search term).2.head? = some term ∧
    ((search term).isSome →
      search_visitor_case_insensitive search term = (search term, [term])) ∧
    (search_visitor_case_insensitive search term).2.tail.Sublist
      ([pyLower term, pyTitle term, pyUpper term] ++ tokenCandidates term) ∧
    (search term = none → (tryVariations search (variationsToTry term)).1.isSome →
      search_visitor_case_insensitive search term =
        ((tryVariations search (variationsToTry term)).1,
         term :: (tryVariations search (variationsToTry term)).2)) ∧
    (search term = none → (∀ v ∈ variationsToTry term, search v = none) →
      ∀ r, (search_visitor_case_insensitive search term).1 = some r →
        tokenVerify (pySplitWs (pyStrip term)) r = true) := by
  unfold search_visitor_case_insensitive
  cases hx : search term with
  | some r =>
    dsimp only
    refine ⟨rfl, fun _ => rfl, List.nil_sublist _, ?_, ?_⟩
    · intro hn
      exact absurd hn (by simp)
    · intro hn
      exact absurd hn (by simp)
  | none =>
    dsimp only
    cases hv : (tryVariations search (variationsToTry term)).1 with
    | some r =>
      dsimp only
      refine ⟨rfl, by simp, ?_, fun _ _ => rfl, ?_⟩
      · exact ((tryVariations_trace_sublist search _).trans
          (variationsToTry_sublist term)).trans
          (List.sublist_append_left _ _)
      · intro _ hall
        rw [tryVariations_all_none search _ hall] at hv
        exact absurd hv (by simp)
    | none =>
      dsimp only
      refine ⟨rfl, by simp, ?_, by simp, ?_⟩
      · exact List.Sublist.append
          ((tryVariations_trace_sublist search _).trans (variationsToTry_sublist term))
          (tryTokens_trace_sublist search term)
      · intro _ _ r hr
        exact tryTokens_some_verified search term r hr

/-- Witness for C5: an oracle that only matches the upper-cased term.
The raw term misses, the title variant misses, the upper variant hits,
and the trace records the attempts in that order. -/
theorem c5_search_fallback_order_witness :
    (fun t => if t = "JOHN DOE" then
        some (VisitorRec.mk "u1" "John" "Doe" "" "ACTIVE") else none) "john doe" = none ∧
    search_visitor_case_insensitive
      (fun t => if t = "JOHN DOE" then
        some (VisitorRec.mk "u1" "John" "Doe" "" "ACTIVE") else none) "john doe" =
      (some (VisitorRec.mk "u1" "John" "Doe" "" "ACTIVE"),
       ["john doe", "John Doe", "JOHN DOE"]) := by
  refine ⟨by decide, ?_⟩
  have h := (c5_search_fallback_order
    (fun t => if t = "JOHN DOE" then
      some (VisitorRec.mk "u1" "John" "Doe" "" "ACTIVE") else none)
    "john doe").2.2.2.1 (by decide) (by decide)
  rw [h]
  decide

end EvTrack

namespace EvTrack

/-! ## `search_visitor_by_term` (automation/visitor_search.py) -/

/-- One `tbody tr` row of the result table: its visible text, the texts
of its `td` cells, and the `href`s of its `a[href*="edit?uuid="]`
links. -/
structure RowData where
  text : String
  cols : List String
  editHrefs : List String
  deriving DecidableEq, Repr

/-- The DOM observations `search_visitor_by_term` makes, in program
order: whether the list page redirected to login, whether the table
wrapper / search input / table appeared before their waits timed out,
and the result rows after the term was typed. -/
structure SearchDom where
  redirectedToLogin : Bool
  wrapperPresent : Bool
  searchInputPresent : Bool
  tablePresent : Bool
  rows : List RowData
  deriving DecidableEq, Repr

/-- `href.split('uuid=')[1].split('&')[0]`, guarded by `'uuid=' in href`
in the source, so index 1 exists; out-of-range indexing is represented
with a default that the guard makes unreachable. -/
def extractUuid (href : String) : String :=
  pySplit ((pySplit href "uuid=").getD 1 "") "&" |>.getD 0 ""

/-- The placeholder test applied to a single-row table. -/
def isPlaceholderRow (r : RowData) : Bool :=
  pyIn "No matching records found" (pyStrip r.text) ||
  pyIn "No data available" (pyStrip r.text)

/-- Row inspection of `search_visitor_by_term`: zero rows and the
single placeholder row map to `None`; otherwise the first row's UUID is
extracted from its edit link (an empty or missing UUID yields `None`)
and the visible columns are read off.  No statement of this part of the
source can raise. -/
def searchRows : List RowData → Option VisitorRec
  | [] => none
  | r :: rest =>
    if rest.isEmpty ∧ isPlaceholderRow r then none
    else if 1 ≤ r.cols.length then
      let uuid :=
        match r.editHrefs with
        | [] => ""
        | href :: _ => if pyIn "uuid=" href then extractUuid href else ""
      if ¬ uuid.isEmpty then
        some
          { uuid := uuid
            first_name := if 1 < r.cols.length then pyStrip (r.cols.getD 1 "") else ""
            last_name := if 2 < r.cols.length then pyStrip (r.cols.getD 2 "") else ""
            mobile := if 3 < r.cols.length then pyStrip (r.cols.getD 3 "") else ""
            status := if 0 < r.cols.length then pyStrip (r.cols.getD 0 "") else "" }
      else
        none
    else
      none

/-- The body of `search_visitor_by_term` inside its `try`: navigation
and login check (a redirect raises), the element waits (a timeout
raises), then the raise-free row inspection. -/
def searchBody (st : SearchDom) (searchTerm : String) :
    Except String (Option VisitorRec) :=
  if st.redirectedToLogin then
    .error "Not logged in - login required"
  else if ¬ st.wrapperPresent then
    .error "TimeoutException: dataTables_wrapper"
  else if ¬ st.searchInputPresent then
    .error "TimeoutException: search input"
  else if ¬ st.tablePresent then
    .error "NoSuchElementException: listTable"
  else
    .ok (searchRows st.rows)

/-- `search_visitor_by_term`: the whole body runs inside
`try/except Exception`, whose handler logs and returns `None`. -/
def search_visitor_by_term (st : SearchDom) (searchTerm : String) : Option VisitorRec :=
  match searchBody st searchTerm with
  | .ok r => r
  | .error _ => none

/-- C6: a table with zero rows, or whose single row is a
"No matching records found" / "No data available" placeholder, makes the
search return `none` rather than raise; and no DOM state or term can
make `search_visitor_by_term` propagate an exception: every error of the
body is converted to the not-found result by the handler. -/
theorem c6_search_not_found_never_raises :
    (∀ st term, st.rows = [] → search_visitor_by_term st term = none) ∧
    (∀ st term r, st.rows = [r] → isPlaceholderRow r = true →
      search_visitor_by_term st term = none) ∧
    (∀ st term e, searchBody st term = .error e →
      search_visitor_by_term st term = none) := by
  have herr : ∀ st term e, searchBody st term = .error e →
      search_visitor_by_term st term = none := by
    intro st term e he
    unfold search_visitor_by_term
    rw [he]
  have hcases : ∀ st term, searchBody st term = .ok (searchRows st.rows) ∨
      ∃ e, searchBody st term = .error e := by
    intro st term
    unfold searchBody
    repeat' split
    all_goals first
      | (left; rfl)
      | (right; exact ⟨_, rfl⟩)
  refine ⟨?_, ?_, herr⟩
  · intro st term hrows
    rcases hcases st term with hb | ⟨e, hb⟩
    · unfold search_visitor_by_term
      rw [hb, hrows]
      rfl
    · exact herr st term e hb
  · intro st term r hrows hph
    rcases hcases st term with hb | ⟨e, hb⟩
    · unfold search_visitor_by_term
      rw [hb, hrows]
      simp [searchRows, hph]
    · exact herr st term e hb

/-- Witness for C6: an empty table, a placeholder table and a
login-redirect state all map to `none`. -/
theorem c6_search_not_found_never_raises_witness :
    search_visitor_by_term (SearchDom.mk false true true true []) "x" = none ∧
    search_visitor_by_term
      (SearchDom.mk false true true true
        [RowData.mk "No matching records found" [] []]) "x" = none ∧
    search_visitor_by_term (SearchDom.mk true true true true []) "x" = none :=
  ⟨c6_search_not_found_never_raises.1 (SearchDom.mk false true true true []) "x" rfl,
   c6_search_not_found_never_raises.2.1
     (SearchDom.mk false true true true [RowData.mk "No matching records found" [] []])
     "x" (RowData.mk "No matching records found" [] []) rfl (by decide),
   c6_search_not_found_never_raises.2.2
     (SearchDom.mk true true true true []) "x" "Not logged in - login required" rfl⟩

end EvTrack

namespace EvTrack

/-! ## Post-save outcome classification (`add_vehicle` of
automation/vehicle_add.py, lines after the save click, and the
credential save classification of automation/credentials.py) -/

/-- What the driver shows after the save click: the current URL and the
texts of any `.alert-danger, .error, .has-error` elements. -/
structure SaveOutcomeState where
  currentUrl : String
  errorBannerTexts : List String
  deriving DecidableEq, Repr

/-- The result dict of `VehicleAddAutomation.add_vehicle` after the save
click: a success dict, or the "unclear" dict with `success: False`. -/
inductive VehicleAddResult where
  | success (message : String)
  | unclear (message : String) (currentUrl : String)
  deriving DecidableEq, Repr

/-- The `success` field of the result dict. -/
def vehicleResultSuccess : VehicleAddResult → Bool
  | .success _ => true
  | .unclear _ _ => false

/-- The banner probe of the non-success branch: finding a banner raises
`Form validation failed: <text>`. -/
def vehicle_banner_check (st : SaveOutcomeState) : Except String Unit :=
  match st.errorBannerTexts with
  | [] => .ok ()
  | t :: _ => .error ("Form validation failed: " ++ t)

/-- The URL classification at the end of `add_vehicle`: a URL containing
both `visitor/edit` and `uuid=` is success; otherwise the banner probe
runs inside a `try` whose bare `except: pass` catches its own raise, so
both probe outcomes continue into the same "unclear" result dict. -/
def classify_vehicle_save (st : SaveOutcomeState) (visitorName : String) :
    VehicleAddResult :=
  if pyIn "visitor/edit" st.currentUrl && pyIn "uuid=" st.currentUrl then
    .success ("Vehicle added successfully to " ++ visitorName)
  else
    match vehicle_banner_check st with
    | .ok _ =>
      .unclear "Vehicle addition status unclear - form submitted but unexpected redirect"
        st.currentUrl
    | .error _ =>
      .unclear "Vehicle addition status unclear - form submitted but unexpected redirect"
        st.currentUrl

/-- Tail of the `/vehicles/add` endpoint: a `success: False` result dict
becomes an HTTP 400 whose detail is the dict's message. -/
def add_vehicle_http (result : VehicleAddResult) : Except HttpError String :=
  match result with
  | .success msg => .ok msg
  | .unclear msg _ => .error ⟨400, msg⟩

/-- C7 counterexample: after the vehicle save, a dashboard URL (in the
claimed expected path family) with an inline error banner present is
classified neither as success nor as a surfaced validation failure: the
workflow returns the non-raised "unclear" dict with `success: False`,
and the endpoint reports HTTP 400. -/
theorem c7_counterexample_unclear_not_success :
    classify_vehicle_save
        (SaveOutcomeState.mk "https://app.evtrack.com/dashboard"
          ["Number plate is required"]) "John Doe" =
      .unclear "Vehicle addition status unclear - form submitted but unexpected redirect"
        "https://app.evtrack.com/dashboard" ∧
    vehicleResultSuccess (classify_vehicle_save
        (SaveOutcomeState.mk "https://app.evtrack.com/dashboard"
          ["Number plate is required"]) "John Doe") = false ∧
    add_vehicle_http (classify_vehicle_save
        (SaveOutcomeState.mk "https://app.evtrack.com/dashboard"
          ["Number plate is required"]) "John Doe") =
      .error ⟨400, "Vehicle addition status unclear - form submitted but unexpected redirect"⟩ := by
  refine ⟨by decide, by decide, by decide⟩

/-- C7 (amended): the post-save outcome is classified solely from the
URL.  In the vehicle-add workflow, a URL containing both `visitor/edit`
and `uuid=` is success; any other URL — banner or no banner — yields the
non-raised "unclear" dict with `success: False`, which the endpoint maps
to HTTP 400 (the banner check's raise is swallowed by its own bare
`except`).  In the credential workflow, any post-save URL at all is
reported as success.  No outcome is retried. -/
theorem c7_save_outcome_classification :
    (∀ st name, (pyIn "visitor/edit" st.currentUrl && pyIn "uuid=" st.currentUrl) = true →
      classify_vehicle_save st name = .success ("Vehicle added successfully to " ++ name)) ∧
    (∀ st name, (pyIn "visitor/edit" st.currentUrl && pyIn "uuid=" st.currentUrl) = false →
      classify_vehicle_save st name =
        .unclear "Vehicle addition status unclear - form submitted but unexpected redirect"
          st.currentUrl ∧
      add_vehicle_http (classify_vehicle_save st name) =
        .error ⟨400,
          "Vehicle addition status unclear - form submitted but unexpected redirect"⟩) ∧
    (∀ url, classify_credential_save url = true) := by
  refine ⟨?_, ?_, ?_⟩
  · intro st name h
    unfold classify_vehicle_save
    rw [if_pos h]
  · intro st name h
    have hu : classify_vehicle_save st name =
        .unclear "Vehicle addition status unclear - form submitted but unexpected redirect"
          st.currentUrl := by
      unfold classify_vehicle_save
      rw [if_neg (by simp [h])]
      cases vehicle_banner_check st <;> rfl
    exact ⟨hu, by rw [hu]; rfl⟩
  · intro url
    unfold classify_credential_save
    split <;> rfl

/-- Witness for the amended C7: a confirmed-save URL, an off-page URL,
and an arbitrary credential post-save URL. -/
theorem c7_save_outcome_classification_witness :
    classify_vehicle_save
        (SaveOutcomeState.mk "https://app.evtrack.com/visitor/edit?uuid=a1" [])
        "John Doe" = .success "Vehicle added successfully to John Doe" ∧
    classify_vehicle_save (SaveOutcomeState.mk "https://app.evtrack.com/visitor/list" [])
        "John Doe" =
      .unclear "Vehicle addition status unclear - form submitted but unexpected redirect"
        "https://app.evtrack.com/visitor/list" ∧
    classify_credential_save "https://app.evtrack.com/anything" = true :=
  ⟨c7_save_outcome_classification.1
     (SaveOutcomeState.mk "https://app.evtrack.com/visitor/edit?uuid=a1" [])
     "John Doe" (by decide),
   (c7_save_outcome_classification.2.1
     (SaveOutcomeState.mk "https://app.evtrack.com/visitor/list" [])
     "John Doe" (by decide)).1,
   c7_save_outcome_classification.2.2 "https://app.evtrack.com/anything"⟩

end EvTrack

namespace EvTrack

/-! ## Login verification loop (`EvTrackLogin.login` of
automation/login.py, the post-submit polling) -/

/-- `max_retries` of the login verification loop. -/
def login_max_retries : Nat := 3

/-- The failure-path banner probe: joins the texts of any
`.alert, .error, .message` elements and raises with them. -/
def login_banner_check (banners : List String) : Except String Unit :=
  match banners with
  | [] => .ok ()
  | _ => .error ("Login failed: " ++ pyJoin " | " banners)

/-- The generic failure raised after the final retry.  (The caller's
outer handler re-wraps it with another "Login failed: " prefix.) -/
def loginStillOnPageMsg : String :=
  "Login failed: Still on login page after multiple attempts"

/-- One turn of the `while retry_count < max_retries` loop: sleep, read
the URL, break on success; on the final retry run the banner probe —
whose raise is caught by the probe's own bare `except: pass`, so both
probe outcomes fall through to the generic raise.  `urlAt i` is the URL
observed on iteration `i`; the second argument is the number of
remaining iterations. -/
def login_poll (urlAt : Nat → String) (banners : List String) :
    Nat → Nat → Except String Unit
  | _, 0 => .ok ()
  | i, remaining + 1 =>
    if ¬ pyIn "login" (pyLower (urlAt i)) then .ok ()
    else if remaining = 0 then
      match login_banner_check banners with
      | .ok _ => .error loginStillOnPageMsg
      | .error _ => .error loginStillOnPageMsg
    else
      login_poll urlAt banners (i + 1) remaining

/-- The login verification: poll the URL for up to `max_retries`
iterations. -/
def login_verify (urlAt : Nat → String) (banners : List String) :
    Except String Unit :=
  login_poll urlAt banners 0 login_max_retries

/-- C8: on the failing input — a session that stays on the login URL for
all three polls while an error banner reading "Invalid username or
password" is displayed — the login raises only the generic
"still on login page" message and the banner text is never surfaced
(its raise is swallowed by the probe's own bare `except`); a session
whose URL loses "login" by the second poll succeeds. -/
theorem c8_login_banner_text_swallowed :
    login_verify (fun _ => "https://app.evtrack.com/login")
        ["Invalid username or password"] = .error loginStillOnPageMsg ∧
    pyIn "Invalid username or password" loginStillOnPageMsg = false ∧
    login_banner_check ["Invalid username or password"] =
      .error "Login failed: Invalid username or password" ∧
    login_verify
      (fun i => if i = 0 then "https://app.evtrack.com/login"
                else "https://app.evtrack.com/dashboard") [] = .ok () := by
  refine ⟨by decide, by decide, by decide, by decide⟩

end EvTrack
